import Mathlib

/-!
Shallow embedding of the airline-management REST API's mutation handlers
(Express + PostgreSQL source).  Each route handler is modelled as a pure
function from a request and a database state to a response and a new
database state.  SQL tables are lists of records; SQL queries are list
operations; JavaScript truthiness on request fields and JS `Date`
comparison semantics are modelled explicitly.
-/

namespace AirlineMS

/-- JS falsiness of an optional string request field: `undefined`/`null`
(modelled as `none`) and the empty string are falsy. -/
def falsy : Option String → Bool
  | none => true
  | some s => s == ""

/-- JS truthiness of an optional string request field. -/
def truthy (o : Option String) : Bool := !falsy o

/-- SQL equality `col = $1` where the parameter is a raw (possibly absent)
request value: `NULL` compares equal to nothing. -/
def sqlEq (field param : Option String) : Bool :=
  match param with
  | some s => field == some s
  | none => false

/-- JS `>=` on two `Date` values, each either a valid instant (milliseconds)
or an Invalid Date (`none`, i.e. NaN): any comparison with NaN is false. -/
def jsGe : Option Int → Option Int → Bool
  | some d, some a => a ≤ d
  | _, _ => false

/-- JS `x || d` for a string field `x` with default `d`: the default is used
when `x` is falsy. -/
def jsOr (o : Option String) (d : String) : String :=
  match o with
  | none => d
  | some s => if s == "" then d else s

/-- Row of the `airline` table. -/
structure Airline where
  id : String
  name : Option String
  iata_code : Option String
  country : Option String
  founded_year : Option Int
deriving DecidableEq

/-- Row of the `airport` table. -/
structure Airport where
  id : String
  name : Option String
  iata_code : Option String
  city : Option String
  country : Option String
  latitude : Option Int
  longitude : Option Int
deriving DecidableEq

/-- Row of the `aircraft` table. -/
structure Aircraft where
  id : String
  registration_number : Option String
  model : Option String
  manufacturer : Option String
  capacity : Option Int
  year_manufactured : Option Int
  airline_id : Option String
deriving DecidableEq

/-- Row of the `flight` table. -/
structure Flight where
  id : String
  flight_number : Option String
  departure_airport_id : Option String
  arrival_airport_id : Option String
  departure_time : Option String
  arrival_time : Option String
  aircraft_id : Option String
  airline_id : Option String
  status : Option String
deriving DecidableEq

/-- Row of the `passenger` table. -/
structure Passenger where
  id : String
  first_name : Option String
  last_name : Option String
  email : Option String
  phone : Option String
  passport_number : Option String
  nationality : Option String
  date_of_birth : Option String
deriving DecidableEq

/-- Row of the `booking` table.  `booking_date` is an instant (ms). -/
structure Booking where
  id : String
  flight_id : Option String
  passenger_id : Option String
  booking_date : Option Int
  seat_number : Option String
  booking_status : Option String
  price : Option Int
deriving DecidableEq

/-- Row of the `crew_member` table. -/
structure CrewMember where
  id : String
  first_name : Option String
  last_name : Option String
  position : Option String
  airline_id : Option String
  license_number : Option String
  experience_years : Option Int
deriving DecidableEq

/-- Row of the `flight_crew` junction table. -/
structure FlightCrew where
  flight_id : Option String
  crew_member_id : Option String
  role : Option String
deriving DecidableEq

/-- Whole persisted database state. -/
structure DB where
  airlines : List Airline
  airports : List Airport
  aircrafts : List Aircraft
  flights : List Flight
  passengers : List Passenger
  bookings : List Booking
  crewMembers : List CrewMember
  flightCrew : List FlightCrew
deriving DecidableEq

/-- HTTP response: status code, message, and the `data` counts object some
rejections attach (empty for the rest). -/
structure Resp where
  status : Nat
  message : String
  counts : List (String × Nat)
deriving DecidableEq

/-- The query `SELECT * FROM airline WHERE id = $1` with a raw request value
as parameter, returning the first row if any. -/
def findAirline (db : DB) (p : Option String) : Option Airline :=
  match p with
  | some s => db.airlines.find? (fun a => a.id == s)
  | none => none

/-- The query `SELECT * FROM airport WHERE id = $1`. -/
def findAirport (db : DB) (p : Option String) : Option Airport :=
  match p with
  | some s => db.airports.find? (fun a => a.id == s)
  | none => none

/-- The query `SELECT * FROM aircraft WHERE id = $1`. -/
def findAircraft (db : DB) (p : Option String) : Option Aircraft :=
  match p with
  | some s => db.aircrafts.find? (fun a => a.id == s)
  | none => none

/-- The query `SELECT * FROM flight WHERE id = $1`. -/
def findFlight (db : DB) (p : Option String) : Option Flight :=
  match p with
  | some s => db.flights.find? (fun f => f.id == s)
  | none => none

/-- The query `SELECT * FROM passenger WHERE id = $1`. -/
def findPassenger (db : DB) (p : Option String) : Option Passenger :=
  match p with
  | some s => db.passengers.find? (fun q => q.id == s)
  | none => none

/-- The query `SELECT * FROM crew_member WHERE id = $1`. -/
def findCrewMember (db : DB) (p : Option String) : Option CrewMember :=
  match p with
  | some s => db.crewMembers.find? (fun c => c.id == s)
  | none => none

/-- Request body of `POST /flights` and `PUT /flights/:id` (all fields come
from JSON and may be absent). -/
structure FlightReq where
  flight_number : Option String
  departure_airport_id : Option String
  arrival_airport_id : Option String
  departure_time : Option String
  arrival_time : Option String
  aircraft_id : Option String
  airline_id : Option String
  status : Option String
deriving DecidableEq

/-- The validation sequence shared verbatim by the flight create and update
handlers (`src/routes/flights.js` lines 99-141 and 177-219): returns the
message of the first failing check, or `none` when all checks pass.
`parse` models `new Date(string)`, yielding `none` for an Invalid Date. -/
def flightError (parse : String → Option Int) (req : FlightReq) (db : DB) :
    Option String :=
  if falsy req.flight_number || falsy req.departure_airport_id ||
      falsy req.arrival_airport_id || falsy req.departure_time ||
      falsy req.arrival_time || falsy req.aircraft_id ||
      falsy req.airline_id then
    some "All flight details are required"
  else if req.departure_airport_id == req.arrival_airport_id then
    some "Departure and arrival airports must be different"
  else if jsGe (req.departure_time.bind parse) (req.arrival_time.bind parse) then
    some "Departure time must be before arrival time"
  else if (findAirport db req.departure_airport_id).isNone then
    some "Departure airport does not exist"
  else if (findAirport db req.arrival_airport_id).isNone then
    some "Arrival airport does not exist"
  else
    match findAircraft db req.aircraft_id with
    | none => some "Aircraft does not exist"
    | some ac =>
      if (findAirline db req.airline_id).isNone then
        some "Airline does not exist"
      else if ac.airline_id != req.airline_id then
        some "Aircraft does not belong to the specified airline"
      else
        none

/-- The row inserted by `POST /flights`: a fresh id, the raw request values,
and `status || 'Scheduled'`. -/
def newFlight (freshId : String) (req : FlightReq) : Flight :=
  ⟨freshId, req.flight_number, req.departure_airport_id,
    req.arrival_airport_id, req.departure_time, req.arrival_time,
    req.aircraft_id, req.airline_id, some (jsOr req.status "Scheduled")⟩

/-- The full-record replacement written by `PUT /flights/:id`: every column
is set to the raw request value (including `status`, with no default). -/
def replaceFlight (f : Flight) (req : FlightReq) : Flight :=
  ⟨f.id, req.flight_number, req.departure_airport_id,
    req.arrival_airport_id, req.departure_time, req.arrival_time,
    req.aircraft_id, req.airline_id, req.status⟩

/-- Handler of `POST /flights`. -/
def createFlight (parse : String → Option Int) (freshId : String)
    (req : FlightReq) (db : DB) : Resp × DB :=
  match flightError parse req db with
  | some m => (⟨400, m, []⟩, db)
  | none =>
    (⟨201, "Flight created successfully", []⟩,
      { db with flights := db.flights ++ [newFlight freshId req] })

/-- Handler of `PUT /flights/:id`. -/
def updateFlight (parse : String → Option Int) (id : String)
    (req : FlightReq) (db : DB) : Resp × DB :=
  match findFlight db (some id) with
  | none => (⟨404, "Flight not found", []⟩, db)
  | some _ =>
    match flightError parse req db with
    | some m => (⟨400, m, []⟩, db)
    | none =>
      (⟨200, "Flight updated successfully", []⟩,
        { db with flights :=
            db.flights.map (fun f => if f.id == id then replaceFlight f req else f) })

/-- Handler of `DELETE /flights/:id`: rejected while Bookings reference the
flight; otherwise FlightCrew rows are removed first, then the flight. -/
def deleteFlight (id : String) (db : DB) : Resp × DB :=
  match findFlight db (some id) with
  | none => (⟨404, "Flight not found", []⟩, db)
  | some _ =>
    if 0 < (db.bookings.filter (fun b => b.flight_id == some id)).length then
      (⟨400, "Cannot delete flight with related bookings",
        [("bookings", (db.bookings.filter (fun b => b.flight_id == some id)).length)]⟩, db)
    else
      (⟨200, "Flight deleted successfully", []⟩,
        { (if 0 < (db.flightCrew.filter (fun fc => fc.flight_id == some id)).length then
            { db with flightCrew :=
                db.flightCrew.filter (fun fc => !(fc.flight_id == some id)) }
          else db) with
          flights := db.flights.filter (fun f => !(f.id == id)) })

/-- Request body of `POST /bookings` and `PUT /bookings/:id`. -/
structure BookingReq where
  flight_id : Option String
  passenger_id : Option String
  seat_number : Option String
  booking_status : Option String
  price : Option Int
deriving DecidableEq

/-- Handler of `POST /bookings` (`src/routes/bookings.js` lines 66-112).
`now` models `new Date()` taken at insert time. -/
def createBooking (freshId : String) (now : Int) (req : BookingReq)
    (db : DB) : Resp × DB :=
  if falsy req.flight_id || falsy req.passenger_id then
    (⟨400, "Flight ID and passenger ID are required", []⟩, db)
  else if (findFlight db req.flight_id).isNone then
    (⟨400, "Flight does not exist", []⟩, db)
  else if (findPassenger db req.passenger_id).isNone then
    (⟨400, "Passenger does not exist", []⟩, db)
  else if truthy req.seat_number &&
      db.bookings.any (fun b =>
        sqlEq b.flight_id req.flight_id && sqlEq b.seat_number req.seat_number) then
    (⟨400, "This seat is already booked", []⟩, db)
  else
    (⟨201, "Booking created successfully", []⟩,
      { db with bookings := db.bookings ++
          [⟨freshId, req.flight_id, req.passenger_id, some now, req.seat_number,
            some (jsOr req.booking_status "Confirmed"), req.price⟩] })

/-- Handler of `PUT /bookings/:id`: full-record replace except
`booking_date`, which the UPDATE statement does not touch; no defaults. -/
def updateBooking (id : String) (req : BookingReq) (db : DB) : Resp × DB :=
  match db.bookings.find? (fun b => b.id == id) with
  | none => (⟨404, "Booking not found", []⟩, db)
  | some _ =>
    if falsy req.flight_id || falsy req.passenger_id then
      (⟨400, "Flight ID and passenger ID are required", []⟩, db)
    else if (findFlight db req.flight_id).isNone then
      (⟨400, "Flight does not exist", []⟩, db)
    else if (findPassenger db req.passenger_id).isNone then
      (⟨400, "Passenger does not exist", []⟩, db)
    else if truthy req.seat_number &&
        db.bookings.any (fun b =>
          sqlEq b.flight_id req.flight_id && sqlEq b.seat_number req.seat_number
            && b.id != id) then
      (⟨400, "This seat is already booked", []⟩, db)
    else
      (⟨200, "Booking updated successfully", []⟩,
        { db with bookings := db.bookings.map (fun b =>
            if b.id == id then
              ⟨b.id, req.flight_id, req.passenger_id, b.booking_date,
                req.seat_number, req.booking_status, req.price⟩
            else b) })

/-- Handler of `DELETE /bookings/:id`. -/
def deleteBooking (id : String) (db : DB) : Resp × DB :=
  match db.bookings.find? (fun b => b.id == id) with
  | none => (⟨404, "Booking not found", []⟩, db)
  | some _ =>
    (⟨200, "Booking deleted successfully", []⟩,
      { db with bookings := db.bookings.filter (fun b => !(b.id == id)) })

/-- Request body of `POST /passengers` and `PUT /passengers/:id`. -/
structure PassengerReq where
  first_name : Option String
  last_name : Option String
  email : Option String
  phone : Option String
  passport_number : Option String
  nationality : Option String
  date_of_birth : Option String
deriving DecidableEq

/-- Handler of `POST /passengers`: rejects a duplicate email. -/
def createPassenger (freshId : String) (req : PassengerReq) (db : DB) :
    Resp × DB :=
  if falsy req.first_name || falsy req.last_name || falsy req.email then
    (⟨400, "First name, last name, and email are required", []⟩, db)
  else if db.passengers.any (fun p => sqlEq p.email req.email) then
    (⟨400, "A passenger with this email already exists", []⟩, db)
  else
    (⟨201, "Passenger created successfully", []⟩,
      { db with passengers := db.passengers ++
          [⟨freshId, req.first_name, req.last_name, req.email, req.phone,
            req.passport_number, req.nationality, req.date_of_birth⟩] })

/-- Handler of `PUT /passengers/:id`: the duplicate-email query excludes the
passenger's own id (`WHERE email = $1 AND id != $2`). -/
def updatePassenger (id : String) (req : PassengerReq) (db : DB) :
    Resp × DB :=
  if falsy req.first_name || falsy req.last_name || falsy req.email then
    (⟨400, "First name, last name, and email are required", []⟩, db)
  else
    match findPassenger db (some id) with
    | none => (⟨404, "Passenger not found", []⟩, db)
    | some _ =>
      if db.passengers.any (fun p => sqlEq p.email req.email && p.id != id) then
        (⟨400, "Another passenger with this email already exists", []⟩, db)
      else
        (⟨200, "Passenger updated successfully", []⟩,
          { db with passengers := db.passengers.map (fun p =>
              if p.id == id then
                ⟨p.id, req.first_name, req.last_name, req.email, req.phone,
                  req.passport_number, req.nationality, req.date_of_birth⟩
              else p) })

/-- Handler of `DELETE /passengers/:id`: blocked by dependent bookings. -/
def deletePassenger (id : String) (db : DB) : Resp × DB :=
  match findPassenger db (some id) with
  | none => (⟨404, "Passenger not found", []⟩, db)
  | some _ =>
    if 0 < (db.bookings.filter (fun b => b.passenger_id == some id)).length then
      (⟨400, "Cannot delete passenger with related bookings",
        [("bookings", (db.bookings.filter (fun b => b.passenger_id == some id)).length)]⟩, db)
    else
      (⟨200, "Passenger deleted successfully", []⟩,
        { db with passengers := db.passengers.filter (fun p => !(p.id == id)) })

/-- Request body of airline create and update. -/
structure AirlineReq where
  name : Option String
  iata_code : Option String
  country : Option String
  founded_year : Option Int
deriving DecidableEq

/-- Handler of `POST /airlines`. -/
def createAirline (freshId : String) (req : AirlineReq) (db : DB) :
    Resp × DB :=
  if falsy req.name then
    (⟨400, "Airline name is required", []⟩, db)
  else
    (⟨201, "Airline created successfully", []⟩,
      { db with airlines := db.airlines ++
          [⟨freshId, req.name, req.iata_code, req.country, req.founded_year⟩] })

/-- Handler of `PUT /airlines/:id`: the UPDATE runs unconditionally and 404
is decided from the affected row count. -/
def updateAirline (id : String) (req : AirlineReq) (db : DB) : Resp × DB :=
  if falsy req.name then
    (⟨400, "Airline name is required", []⟩, db)
  else
    if db.airlines.any (fun a => a.id == id) then
      (⟨200, "Airline updated successfully", []⟩,
        { db with airlines := db.airlines.map (fun a =>
            if a.id == id then
              ⟨a.id, req.name, req.iata_code, req.country, req.founded_year⟩
            else a) })
    else
      (⟨404, "Airline not found", []⟩,
        { db with airlines := db.airlines.map (fun a =>
            if a.id == id then
              ⟨a.id, req.name, req.iata_code, req.country, req.founded_year⟩
            else a) })

/-- Handler of `DELETE /airlines/:id`: blocked by dependent aircraft,
flights or crew members, reporting all three counts. -/
def deleteAirline (id : String) (db : DB) : Resp × DB :=
  match findAirline db (some id) with
  | none => (⟨404, "Airline not found", []⟩, db)
  | some _ =>
    if 0 < (db.aircrafts.filter (fun ac => ac.airline_id == some id)).length ||
        0 < (db.flights.filter (fun f => f.airline_id == some id)).length ||
        0 < (db.crewMembers.filter (fun c => c.airline_id == some id)).length then
      (⟨400, "Cannot delete airline with related records",
        [("aircraft", (db.aircrafts.filter (fun ac => ac.airline_id == some id)).length),
         ("flights", (db.flights.filter (fun f => f.airline_id == some id)).length),
         ("crewMembers", (db.crewMembers.filter (fun c => c.airline_id == some id)).length)]⟩, db)
    else
      (⟨200, "Airline deleted successfully", []⟩,
        { db with airlines := db.airlines.filter (fun a => !(a.id == id)) })

/-- Request body of airport create and update. -/
structure AirportReq where
  name : Option String
  iata_code : Option String
  city : Option String
  country : Option String
  latitude : Option Int
  longitude : Option Int
deriving DecidableEq

/-- Handler of `POST /airports`. -/
def createAirport (freshId : String) (req : AirportReq) (db : DB) :
    Resp × DB :=
  if falsy req.name then
    (⟨400, "Airport name is required", []⟩, db)
  else
    (⟨201, "Airport created successfully", []⟩,
      { db with airports := db.airports ++
          [⟨freshId, req.name, req.iata_code, req.city, req.country,
            req.latitude, req.longitude⟩] })

/-- Handler of `PUT /airports/:id`. -/
def updateAirport (id : String) (req : AirportReq) (db : DB) : Resp × DB :=
  if falsy req.name then
    (⟨400, "Airport name is required", []⟩, db)
  else
    if db.airports.any (fun a => a.id == id) then
      (⟨200, "Airport updated successfully", []⟩,
        { db with airports := db.airports.map (fun a =>
            if a.id == id then
              ⟨a.id, req.name, req.iata_code, req.city, req.country,
                req.latitude, req.longitude⟩
            else a) })
    else
      (⟨404, "Airport not found", []⟩,
        { db with airports := db.airports.map (fun a =>
            if a.id == id then
              ⟨a.id, req.name, req.iata_code, req.city, req.country,
                req.latitude, req.longitude⟩
            else a) })

/-- Handler of `DELETE /airports/:id`: blocked by departing or arriving
flights, reporting both counts. -/
def deleteAirport (id : String) (db : DB) : Resp × DB :=
  match findAirport db (some id) with
  | none => (⟨404, "Airport not found", []⟩, db)
  | some _ =>
    if 0 < (db.flights.filter (fun f => f.departure_airport_id == some id)).length ||
        0 < (db.flights.filter (fun f => f.arrival_airport_id == some id)).length then
      (⟨400, "Cannot delete airport with related flights",
        [("departing", (db.flights.filter (fun f => f.departure_airport_id == some id)).length),
         ("arriving", (db.flights.filter (fun f => f.arrival_airport_id == some id)).length)]⟩, db)
    else
      (⟨200, "Airport deleted successfully", []⟩,
        { db with airports := db.airports.filter (fun a => !(a.id == id)) })

/-- Request body of aircraft create and update. -/
structure AircraftReq where
  registration_number : Option String
  model : Option String
  manufacturer : Option String
  capacity : Option Int
  year_manufactured : Option Int
  airline_id : Option String
deriving DecidableEq

/-- Handler of `POST /aircraft`: the airline reference is checked only when
an `airline_id` is supplied. -/
def createAircraft (freshId : String) (req : AircraftReq) (db : DB) :
    Resp × DB :=
  if falsy req.registration_number || falsy req.model then
    (⟨400, "Registration number and model are required", []⟩, db)
  else if truthy req.airline_id && (findAirline db req.airline_id).isNone then
    (⟨400, "Specified airline does not exist", []⟩, db)
  else
    (⟨201, "Aircraft created successfully", []⟩,
      { db with aircrafts := db.aircrafts ++
          [⟨freshId, req.registration_number, req.model, req.manufacturer,
            req.capacity, req.year_manufactured, req.airline_id⟩] })

/-- Handler of `PUT /aircraft/:id`. -/
def updateAircraft (id : String) (req : AircraftReq) (db : DB) : Resp × DB :=
  if falsy req.registration_number || falsy req.model then
    (⟨400, "Registration number and model are required", []⟩, db)
  else if truthy req.airline_id && (findAirline db req.airline_id).isNone then
    (⟨400, "Specified airline does not exist", []⟩, db)
  else
    if db.aircrafts.any (fun a => a.id == id) then
      (⟨200, "Aircraft updated successfully", []⟩,
        { db with aircrafts := db.aircrafts.map (fun a =>
            if a.id == id then
              ⟨a.id, req.registration_number, req.model, req.manufacturer,
                req.capacity, req.year_manufactured, req.airline_id⟩
            else a) })
    else
      (⟨404, "Aircraft not found", []⟩,
        { db with aircrafts := db.aircrafts.map (fun a =>
            if a.id == id then
              ⟨a.id, req.registration_number, req.model, req.manufacturer,
                req.capacity, req.year_manufactured, req.airline_id⟩
            else a) })

/-- Handler of `DELETE /aircraft/:id`: blocked by dependent flights. -/
def deleteAircraft (id : String) (db : DB) : Resp × DB :=
  match findAircraft db (some id) with
  | none => (⟨404, "Aircraft not found", []⟩, db)
  | some _ =>
    if 0 < (db.flights.filter (fun f => f.aircraft_id == some id)).length then
      (⟨400, "Cannot delete aircraft with related flights",
        [("flights", (db.flights.filter (fun f => f.aircraft_id == some id)).length)]⟩, db)
    else
      (⟨200, "Aircraft deleted successfully", []⟩,
        { db with aircrafts := db.aircrafts.filter (fun a => !(a.id == id)) })

/-- Request body of crew-member create and update. -/
structure CrewMemberReq where
  first_name : Option String
  last_name : Option String
  position : Option String
  airline_id : Option String
  license_number : Option String
  experience_years : Option Int
deriving DecidableEq

/-- Handler of `POST /crew-members`. -/
def createCrewMember (freshId : String) (req : CrewMemberReq) (db : DB) :
    Resp × DB :=
  if falsy req.first_name || falsy req.last_name || falsy req.position ||
      falsy req.airline_id then
    (⟨400, "First name, last name, position, and airline ID are required", []⟩, db)
  else if (findAirline db req.airline_id).isNone then
    (⟨400, "Airline does not exist", []⟩, db)
  else
    (⟨201, "Crew member created successfully", []⟩,
      { db with crewMembers := db.crewMembers ++
          [⟨freshId, req.first_name, req.last_name, req.position,
            req.airline_id, req.license_number, req.experience_years⟩] })

/-- Handler of `PUT /crew-members/:id`. -/
def updateCrewMember (id : String) (req : CrewMemberReq) (db : DB) :
    Resp × DB :=
  match findCrewMember db (some id) with
  | none => (⟨404, "Crew member not found", []⟩, db)
  | some _ =>
    if falsy req.first_name || falsy req.last_name || falsy req.position ||
        falsy req.airline_id then
      (⟨400, "First name, last name, position, and airline ID are required", []⟩, db)
    else if (findAirline db req.airline_id).isNone then
      (⟨400, "Airline does not exist", []⟩, db)
    else
      (⟨200, "Crew member updated successfully", []⟩,
        { db with crewMembers := db.crewMembers.map (fun c =>
            if c.id == id then
              ⟨c.id, req.first_name, req.last_name, req.position,
                req.airline_id, req.license_number, req.experience_years⟩
            else c) })

/-- Handler of `DELETE /crew-members/:id`: existing FlightCrew assignments
are deleted first, then the crew member (no rejection). -/
def deleteCrewMember (id : String) (db : DB) : Resp × DB :=
  match findCrewMember db (some id) with
  | none => (⟨404, "Crew member not found", []⟩, db)
  | some _ =>
    (⟨200, "Crew member deleted successfully", []⟩,
      { (if 0 < (db.flightCrew.filter (fun fc => fc.crew_member_id == some id)).length then
          { db with flightCrew :=
              db.flightCrew.filter (fun fc => !(fc.crew_member_id == some id)) }
        else db) with
        crewMembers := db.crewMembers.filter (fun c => !(c.id == id)) })

/-- Request body of `POST /crew-members/assign` and
`DELETE /crew-members/assign`. -/
structure AssignReq where
  flight_id : Option String
  crew_member_id : Option String
  role : Option String
deriving DecidableEq

/-- Handler of `POST /crew-members/assign` (`src/unnamed/part_005`
lines 159-206). -/
def assignCrew (req : AssignReq) (db : DB) : Resp × DB :=
  if falsy req.flight_id || falsy req.crew_member_id || falsy req.role then
    (⟨400, "Flight ID, crew member ID, and role are required", []⟩, db)
  else
    match findFlight db req.flight_id with
    | none => (⟨400, "Flight does not exist", []⟩, db)
    | some f =>
      match findCrewMember db req.crew_member_id with
      | none => (⟨400, "Crew member does not exist", []⟩, db)
      | some c =>
        if c.airline_id != f.airline_id then
          (⟨400, "Crew member does not belong to the airline operating this flight", []⟩, db)
        else if db.flightCrew.any (fun fc =>
            sqlEq fc.flight_id req.flight_id &&
            sqlEq fc.crew_member_id req.crew_member_id) then
          (⟨400, "This crew member is already assigned to this flight", []⟩, db)
        else
          (⟨201, "Crew member assigned to flight successfully", []⟩,
            { db with flightCrew := db.flightCrew ++
                [⟨req.flight_id, req.crew_member_id, req.role⟩] })

/-- Handler of `DELETE /crew-members/assign`. -/
def removeAssignment (req : AssignReq) (db : DB) : Resp × DB :=
  if falsy req.flight_id || falsy req.crew_member_id then
    (⟨400, "Flight ID and crew member ID are required", []⟩, db)
  else if db.flightCrew.any (fun fc =>
      sqlEq fc.flight_id req.flight_id &&
      sqlEq fc.crew_member_id req.crew_member_id) then
    (⟨200, "Crew member removed from flight successfully", []⟩,
      { db with flightCrew := db.flightCrew.filter (fun fc =>
          !(sqlEq fc.flight_id req.flight_id &&
            sqlEq fc.crew_member_id req.crew_member_id)) })
  else
    (⟨404, "Assignment not found", []⟩, db)

/-- Checks the claimed strict time order on the parsed instants: false when
either timestamp fails to parse. -/
def parsedBefore (parse : String → Option Int) (dep arr : Option String) : Bool :=
  match dep.bind parse, arr.bind parse with
  | some d, some a => d < a
  | _, _ => false

/-- Check 7 of the claimed order: the referenced aircraft belongs to the
flight's airline (vacuously true when the aircraft is not found, which an
earlier check already rejects). -/
def aircraftOwnOk (req : FlightReq) (db : DB) : Bool :=
  match findAircraft db req.aircraft_id with
  | some ac => ac.airline_id == req.airline_id
  | none => true

/-- The ordered list of flight-write validation checks as the specification
enumerates them: each entry is (check passes, rejection message), with the
claimed check 4 split into its departure and arrival halves. -/
def specFlightChecks (parse : String → Option Int) (req : FlightReq)
    (db : DB) : List (Bool × String) :=
  [ (!(falsy req.flight_number || falsy req.departure_airport_id ||
        falsy req.arrival_airport_id || falsy req.departure_time ||
        falsy req.arrival_time || falsy req.aircraft_id ||
        falsy req.airline_id), "All flight details are required"),
    (!(req.departure_airport_id == req.arrival_airport_id),
      "Departure and arrival airports must be different"),
    (parsedBefore parse req.departure_time req.arrival_time,
      "Departure time must be before arrival time"),
    ((findAirport db req.departure_airport_id).isSome,
      "Departure airport does not exist"),
    ((findAirport db req.arrival_airport_id).isSome,
      "Arrival airport does not exist"),
    ((findAircraft db req.aircraft_id).isSome, "Aircraft does not exist"),
    ((findAirline db req.airline_id).isSome, "Airline does not exist"),
    (aircraftOwnOk req db, "Aircraft does not belong to the specified airline") ]

/-- Short-circuit evaluation of an ordered check list: the message of the
first failing check, or `none` when every check passes. -/
def firstFailure : List (Bool × String) → Option String
  | [] => none
  | (ok, msg) :: rest => if ok then firstFailure rest else some msg

/-- Response shape determined by a validation outcome: a 400 with the
rejection message, or the given success response. -/
def respOf (e : Option String) (okStatus : Nat) (okMsg : String) : Resp :=
  match e with
  | some m => ⟨400, m, []⟩
  | none => ⟨okStatus, okMsg, []⟩

lemma if_not_bool {α : Type} (b : Bool) (x y : α) :
    (if !b then x else y) = if b then y else x := by
  cases b <;> rfl

lemma isNone_eq_not_isSome {α : Type} (o : Option α) :
    o.isNone = !o.isSome := by
  cases o <;> rfl

/-- The flight validation sequence computes exactly the first failure of the
specification's ordered check list, provided both timestamps parse. -/
lemma flightError_eq_firstFailure (parse : String → Option Int)
    (req : FlightReq) (db : DB) (d a : Int)
    (hd : req.departure_time.bind parse = some d)
    (ha : req.arrival_time.bind parse = some a) :
    flightError parse req db = firstFailure (specFlightChecks parse req db) := by
  have h3 : jsGe (req.departure_time.bind parse) (req.arrival_time.bind parse)
      = !(parsedBefore parse req.departure_time req.arrival_time) := by
    unfold jsGe parsedBefore
    rw [hd, ha]
    by_cases h : d < a
    · simp [h, not_le.mpr h]
    · simp [h, not_lt.mp h]
  unfold flightError specFlightChecks
  simp only [firstFailure]
  rw [h3]
  cases hac : findAircraft db req.aircraft_id with
  | none =>
    simp only [hac, aircraftOwnOk, Option.isSome_none, Option.isNone_none,
      isNone_eq_not_isSome, if_not_bool, bne]
    simp
  | some ac =>
    simp only [hac, aircraftOwnOk, Option.isSome_some, Option.isNone_some,
      isNone_eq_not_isSome, if_not_bool, bne, Bool.not_true, if_true, if_false]

/-- Concrete timestamp parser used in witnesses: "1" and "2" parse to the
instants 1 and 2; every other string is an Invalid Date. -/
def parseDemo : String → Option Int := fun s =>
  if s == "1" then some 1 else if s == "2" then some 2 else none

/-- Concrete sample database used by witnesses and counterexamples: two
airlines, two airports, one aircraft owned by airline a1, one flight f1,
one passenger, no bookings, two crew members, one crew assignment. -/
def dbC : DB :=
  ⟨[⟨"a1", some "Test Air", some "TA", none, none⟩,
    ⟨"a2", some "Other Air", some "OA", none, none⟩],
   [⟨"ap1", some "Airport One", none, none, none, none, none⟩,
    ⟨"ap2", some "Airport Two", none, none, none, none, none⟩],
   [⟨"ac1", some "N12345", some "B747", none, none, none, some "a1"⟩],
   [⟨"f1", some "AA101", some "ap1", some "ap2", some "1", some "2",
     some "ac1", some "a1", some "Scheduled"⟩],
   [⟨"p1", some "John", some "Doe", some "john@example.com", none, none, none, none⟩],
   [],
   [⟨"c1", some "Michael", some "Johnson", some "Pilot", some "a1", none, none⟩,
    ⟨"c2", some "Robert", some "Brown", some "Pilot", some "a2", none, none⟩],
   [⟨some "f1", some "c1", some "Captain"⟩]⟩

/-- The empty database. -/
def dbE : DB := ⟨[], [], [], [], [], [], [], []⟩

/-- A fully admissible flight-creation request against `dbC`. -/
def reqC : FlightReq :=
  ⟨some "AA102", some "ap1", some "ap2", some "1", some "2",
    some "ac1", some "a1", none⟩

/-- C1: for every flight create or update request whose timestamps parse to
instants, the handler's response is exactly determined by the first failure
of the specification's ordered check list (required fields, distinct
airports, strict time order, departure airport, arrival airport, aircraft,
airline, aircraft-airline ownership) — short-circuiting yields exactly one
rejection reason, and a candidate passing all checks is accepted. -/
theorem flight_write_checks_ordered (parse : String → Option Int)
    (req : FlightReq) (db : DB) (d a : Int)
    (hd : req.departure_time.bind parse = some d)
    (ha : req.arrival_time.bind parse = some a) :
    (∀ freshId, (createFlight parse freshId req db).1 =
      respOf (firstFailure (specFlightChecks parse req db)) 201
        "Flight created successfully")
    ∧ (∀ id f, findFlight db (some id) = some f →
      (updateFlight parse id req db).1 =
      respOf (firstFailure (specFlightChecks parse req db)) 200
        "Flight updated successfully") := by
  have he := flightError_eq_firstFailure parse req db d a hd ha
  constructor
  · intro freshId
    unfold createFlight
    rw [he]
    cases hf : firstFailure (specFlightChecks parse req db) <;> simp [hf, respOf]
  · intro id f hfind
    unfold updateFlight
    rw [hfind, he]
    cases hf : firstFailure (specFlightChecks parse req db) <;> simp [hf, respOf]

/-- Witness for C1 at a concrete admissible request. -/
theorem flight_write_checks_ordered_witness :
    (createFlight parseDemo "f9" reqC dbC).1 =
      respOf (firstFailure (specFlightChecks parseDemo reqC dbC)) 201
        "Flight created successfully" :=
  (flight_write_checks_ordered parseDemo reqC dbC 1 2 (by decide) (by decide)).1 "f9"

/-- A response that reports a rejection: a validation or business-rule
failure (400) or an unresolved id (404). -/
def rejected (r : Resp) : Prop := r.status = 400 ∨ r.status = 404

lemma any_eq_false_map_ite {α : Type} (p : α → Bool) (g : α → α)
    (l : List α) (h : l.any p = false) :
    (l.map fun x => if p x then g x else x) = l := by
  induction l with
  | nil => rfl
  | cons x xs ih =>
    simp only [List.any_cons, Bool.or_eq_false_iff] at h
    simp [h.1, ih h.2]

lemma createFlight_reject (parse : String → Option Int) (freshId : String)
    (req : FlightReq) (db : DB) :
    rejected (createFlight parse freshId req db).1 →
      (createFlight parse freshId req db).2 = db := by
  unfold createFlight
  cases hf : flightError parse req db <;> simp [rejected]

lemma updateFlight_reject (parse : String → Option Int) (id : String)
    (req : FlightReq) (db : DB) :
    rejected (updateFlight parse id req db).1 →
      (updateFlight parse id req db).2 = db := by
  unfold updateFlight
  cases hfind : findFlight db (some id) with
  | none => simp [rejected]
  | some f => cases hf : flightError parse req db <;> simp [rejected]

lemma deleteFlight_reject (id : String) (db : DB) :
    rejected (deleteFlight id db).1 → (deleteFlight id db).2 = db := by
  unfold deleteFlight
  repeat' split
  all_goals simp [rejected]

lemma createBooking_reject (freshId : String) (now : Int) (req : BookingReq)
    (db : DB) :
    rejected (createBooking freshId now req db).1 →
      (createBooking freshId now req db).2 = db := by
  unfold createBooking
  repeat' split
  all_goals simp [rejected]

lemma updateBooking_reject (id : String) (req : BookingReq) (db : DB) :
    rejected (updateBooking id req db).1 → (updateBooking id req db).2 = db := by
  unfold updateBooking
  repeat' split
  all_goals simp [rejected]

lemma deleteBooking_reject (id : String) (db : DB) :
    rejected (deleteBooking id db).1 → (deleteBooking id db).2 = db := by
  unfold deleteBooking
  repeat' split
  all_goals simp [rejected]

lemma createPassenger_reject (freshId : String) (req : PassengerReq) (db : DB) :
    rejected (createPassenger freshId req db).1 →
      (createPassenger freshId req db).2 = db := by
  unfold createPassenger
  repeat' split
  all_goals simp [rejected]

lemma updatePassenger_reject (id : String) (req : PassengerReq) (db : DB) :
    rejected (updatePassenger id req db).1 →
      (updatePassenger id req db).2 = db := by
  unfold updatePassenger
  repeat' split
  all_goals simp [rejected]

lemma deletePassenger_reject (id : String) (db : DB) :
    rejected (deletePassenger id db).1 → (deletePassenger id db).2 = db := by
  unfold deletePassenger
  repeat' split
  all_goals simp [rejected]

lemma createAirline_reject (freshId : String) (req : AirlineReq) (db : DB) :
    rejected (createAirline freshId req db).1 →
      (createAirline freshId req db).2 = db := by
  unfold createAirline
  repeat' split
  all_goals simp [rejected]

lemma updateAirline_reject (id : String) (req : AirlineReq) (db : DB) :
    rejected (updateAirline id req db).1 → (updateAirline id req db).2 = db := by
  unfold updateAirline
  split
  · simp [rejected]
  · split
    · simp [rejected]
    · intro hr
      rename_i h
      have h0 : db.airlines.any (fun a => a.id == id) = false := by
        simpa using h
      have h2 : (db.airlines.map fun a =>
          if a.id == id then
            (⟨a.id, req.name, req.iata_code, req.country, req.founded_year⟩ : Airline)
          else a) = db.airlines :=
        any_eq_false_map_ite _ _ _ h0
      rw [h2]

lemma deleteAirline_reject (id : String) (db : DB) :
    rejected (deleteAirline id db).1 → (deleteAirline id db).2 = db := by
  unfold deleteAirline
  repeat' split
  all_goals simp [rejected]

lemma createAirport_reject (freshId : String) (req : AirportReq) (db : DB) :
    rejected (createAirport freshId req db).1 →
      (createAirport freshId req db).2 = db := by
  unfold createAirport
  repeat' split
  all_goals simp [rejected]

lemma updateAirport_reject (id : String) (req : AirportReq) (db : DB) :
    rejected (updateAirport id req db).1 → (updateAirport id req db).2 = db := by
  unfold updateAirport
  split
  · simp [rejected]
  · split
    · simp [rejected]
    · intro hr
      rename_i h
      have h0 : db.airports.any (fun a => a.id == id) = false := by
        simpa using h
      have h2 : (db.airports.map fun a =>
          if a.id == id then
            (⟨a.id, req.name, req.iata_code, req.city, req.country,
              req.latitude, req.longitude⟩ : Airport)
          else a) = db.airports :=
        any_eq_false_map_ite _ _ _ h0
      rw [h2]

lemma deleteAirport_reject (id : String) (db : DB) :
    rejected (deleteAirport id db).1 → (deleteAirport id db).2 = db := by
  unfold deleteAirport
  repeat' split
  all_goals simp [rejected]

lemma createAircraft_reject (freshId : String) (req : AircraftReq) (db : DB) :
    rejected (createAircraft freshId req db).1 →
      (createAircraft freshId req db).2 = db := by
  unfold createAircraft
  repeat' split
  all_goals simp [rejected]

lemma updateAircraft_reject (id : String) (req : AircraftReq) (db : DB) :
    rejected (updateAircraft id req db).1 → (updateAircraft id req db).2 = db := by
  unfold updateAircraft
  split
  · simp [rejected]
  · split
    · simp [rejected]
    · split
      · simp [rejected]
      · intro hr
        rename_i h
        have h0 : db.aircrafts.any (fun a => a.id == id) = false := by
          simpa using h
        have h2 : (db.aircrafts.map fun a =>
            if a.id == id then
              (⟨a.id, req.registration_number, req.model, req.manufacturer,
                req.capacity, req.year_manufactured, req.airline_id⟩ : Aircraft)
            else a) = db.aircrafts :=
          any_eq_false_map_ite _ _ _ h0
        rw [h2]

lemma deleteAircraft_reject (id : String) (db : DB) :
    rejected (deleteAircraft id db).1 → (deleteAircraft id db).2 = db := by
  unfold deleteAircraft
  repeat' split
  all_goals simp [rejected]

lemma createCrewMember_reject (freshId : String) (req : CrewMemberReq) (db : DB) :
    rejected (createCrewMember freshId req db).1 →
      (createCrewMember freshId req db).2 = db := by
  unfold createCrewMember
  repeat' split
  all_goals simp [rejected]

lemma updateCrewMember_reject (id : String) (req : CrewMemberReq) (db : DB) :
    rejected (updateCrewMember id req db).1 →
      (updateCrewMember id req db).2 = db := by
  unfold updateCrewMember
  repeat' split
  all_goals simp [rejected]

lemma deleteCrewMember_reject (id : String) (db : DB) :
    rejected (deleteCrewMember id db).1 → (deleteCrewMember id db).2 = db := by
  unfold deleteCrewMember
  repeat' split
  all_goals simp [rejected]

lemma assignCrew_reject (req : AssignReq) (db : DB) :
    rejected (assignCrew req db).1 → (assignCrew req db).2 = db := by
  unfold assignCrew
  repeat' split
  all_goals simp [rejected]

lemma removeAssignment_reject (req : AssignReq) (db : DB) :
    rejected (removeAssignment req db).1 → (removeAssignment req db).2 = db := by
  unfold removeAssignment
  repeat' split
  all_goals simp [rejected]

/-- C2: whenever any mutating handler (create, update, delete, or crew
assignment, over all seven entities) rejects a request with a 400
validation/business-rule failure or a 404, the returned database state
equals the input state: the handler returns before performing any write. -/
theorem rejected_write_leaves_state_unchanged :
    (∀ parse freshId req db, rejected (createFlight parse freshId req db).1 →
      (createFlight parse freshId req db).2 = db)
    ∧ (∀ parse id req db, rejected (updateFlight parse id req db).1 →
      (updateFlight parse id req db).2 = db)
    ∧ (∀ id db, rejected (deleteFlight id db).1 → (deleteFlight id db).2 = db)
    ∧ (∀ freshId now req db, rejected (createBooking freshId now req db).1 →
      (createBooking freshId now req db).2 = db)
    ∧ (∀ id req db, rejected (updateBooking id req db).1 →
      (updateBooking id req db).2 = db)
    ∧ (∀ id db, rejected (deleteBooking id db).1 → (deleteBooking id db).2 = db)
    ∧ (∀ freshId req db, rejected (createPassenger freshId req db).1 →
      (createPassenger freshId req db).2 = db)
    ∧ (∀ id req db, rejected (updatePassenger id req db).1 →
      (updatePassenger id req db).2 = db)
    ∧ (∀ id db, rejected (deletePassenger id db).1 → (deletePassenger id db).2 = db)
    ∧ (∀ freshId req db, rejected (createAirline freshId req db).1 →
      (createAirline freshId req db).2 = db)
    ∧ (∀ id req db, rejected (updateAirline id req db).1 →
      (updateAirline id req db).2 = db)
    ∧ (∀ id db, rejected (deleteAirline id db).1 → (deleteAirline id db).2 = db)
    ∧ (∀ freshId req db, rejected (createAirport freshId req db).1 →
      (createAirport freshId req db).2 = db)
    ∧ (∀ id req db, rejected (updateAirport id req db).1 →
      (updateAirport id req db).2 = db)
    ∧ (∀ id db, rejected (deleteAirport id db).1 → (deleteAirport id db).2 = db)
    ∧ (∀ freshId req db, rejected (createAircraft freshId req db).1 →
      (createAircraft freshId req db).2 = db)
    ∧ (∀ id req db, rejected (updateAircraft id req db).1 →
      (updateAircraft id req db).2 = db)
    ∧ (∀ id db, rejected (deleteAircraft id db).1 → (deleteAircraft id db).2 = db)
    ∧ (∀ freshId req db, rejected (createCrewMember freshId req db).1 →
      (createCrewMember freshId req db).2 = db)
    ∧ (∀ id req db, rejected (updateCrewMember id req db).1 →
      (updateCrewMember id req db).2 = db)
    ∧ (∀ id db, rejected (deleteCrewMember id db).1 → (deleteCrewMember id db).2 = db)
    ∧ (∀ req db, rejected (assignCrew req db).1 → (assignCrew req db).2 = db)
    ∧ (∀ req db, rejected (removeAssignment req db).1 →
      (removeAssignment req db).2 = db) :=
  ⟨createFlight_reject, updateFlight_reject, deleteFlight_reject,
   createBooking_reject, updateBooking_reject, deleteBooking_reject,
   createPassenger_reject, updatePassenger_reject, deletePassenger_reject,
   createAirline_reject, updateAirline_reject, deleteAirline_reject,
   createAirport_reject, updateAirport_reject, deleteAirport_reject,
   createAircraft_reject, updateAircraft_reject, deleteAircraft_reject,
   createCrewMember_reject, updateCrewMember_reject, deleteCrewMember_reject,
   assignCrew_reject, removeAssignment_reject⟩

/-- A flight-creation request with identical departure and arrival airports,
used to exercise a rejected write. -/
def reqSameAirport : FlightReq :=
  ⟨some "AA103", some "ap1", some "ap1", some "1", some "2",
    some "ac1", some "a1", none⟩

/-- Witness for C2: a concrete rejected flight creation (same departure and
arrival airport) leaves the database unchanged. -/
theorem rejected_write_leaves_state_unchanged_witness :
    (createFlight parseDemo "f9" reqSameAirport dbC).2 = dbC :=
  rejected_write_leaves_state_unchanged.1 parseDemo "f9" reqSameAirport dbC
    (Or.inl (by decide))

lemma filter_not_of_any_eq_false {α : Type} (p : α → Bool) (l : List α)
    (h : l.any p = false) : l.filter (fun x => !(p x)) = l := by
  induction l with
  | nil => rfl
  | cons x xs ih =>
    simp only [List.any_cons, Bool.or_eq_false_iff] at h
    simp [List.filter_cons, h.1, ih h.2]

lemma any_eq_false_of_filter_len {α : Type} (p : α → Bool) (l : List α)
    (h : (l.filter p).length = 0) : l.any p = false := by
  induction l with
  | nil => rfl
  | cons x xs ih =>
    cases hp : p x <;>
      simp only [List.filter_cons, hp, List.any_cons, if_true, if_false,
        List.length_cons, Bool.false_or] at h ⊢
    · exact ih h
    · omega

/-- The flight row of `dbC`. -/
def f1rec : Flight :=
  ⟨"f1", some "AA101", some "ap1", some "ap2", some "1", some "2",
    some "ac1", some "a1", some "Scheduled"⟩

/-- C3: deleting an existing flight is rejected with the booking count and
no state change when at least one booking references it; with zero bookings
it succeeds, removing the flight's FlightCrew rows together with the flight
and touching nothing else. -/
theorem flight_delete_guard (db : DB) (id : String) (f : Flight)
    (hfind : findFlight db (some id) = some f) :
    (0 < (db.bookings.filter (fun b => b.flight_id == some id)).length →
      deleteFlight id db =
        (⟨400, "Cannot delete flight with related bookings",
          [("bookings", (db.bookings.filter (fun b => b.flight_id == some id)).length)]⟩, db))
    ∧ ((db.bookings.filter (fun b => b.flight_id == some id)).length = 0 →
      (deleteFlight id db).1.status = 200
      ∧ (deleteFlight id db).2 =
        { db with
          flights := db.flights.filter (fun g => !(g.id == id)),
          flightCrew := db.flightCrew.filter (fun fc => !(fc.flight_id == some id)) }) := by
  unfold deleteFlight
  simp only [hfind]
  constructor
  · intro hpos
    rw [if_pos hpos]
  · intro hzero
    have hneg : ¬ 0 < (db.bookings.filter (fun b => b.flight_id == some id)).length := by
      omega
    rw [if_neg hneg]
    refine ⟨rfl, ?_⟩
    by_cases hc : 0 < (db.flightCrew.filter (fun fc => fc.flight_id == some id)).length
    · rw [if_pos hc]
    · rw [if_neg hc]
      have h0 : db.flightCrew.any (fun fc => fc.flight_id == some id) = false :=
        any_eq_false_of_filter_len _ _ (by omega)
      rw [filter_not_of_any_eq_false _ _ h0]

/-- Witness for C3: deleting flight f1 of `dbC` (zero bookings, one crew
assignment) succeeds and removes both the flight and its assignment. -/
theorem flight_delete_guard_witness :
    (deleteFlight "f1" dbC).1.status = 200
    ∧ (deleteFlight "f1" dbC).2 =
      { dbC with
        flights := dbC.flights.filter (fun g => !(g.id == "f1")),
        flightCrew := dbC.flightCrew.filter (fun fc => !(fc.flight_id == some "f1")) } :=
  (flight_delete_guard dbC "f1" f1rec (by decide)).2 (by decide)

/-- C4: deleting an existing airline is rejected, reporting the exact
dependent counts in all three relations, when any aircraft, flight or crew
member references it; with all three counts zero it succeeds and removes
the airline. -/
theorem airline_delete_guard (db : DB) (id : String) (al : Airline)
    (hfind : findAirline db (some id) = some al) :
    ((0 < (db.aircrafts.filter (fun ac => ac.airline_id == some id)).length ∨
      0 < (db.flights.filter (fun f => f.airline_id == some id)).length ∨
      0 < (db.crewMembers.filter (fun c => c.airline_id == some id)).length) →
      deleteAirline id db =
        (⟨400, "Cannot delete airline with related records",
          [("aircraft", (db.aircrafts.filter (fun ac => ac.airline_id == some id)).length),
           ("flights", (db.flights.filter (fun f => f.airline_id == some id)).length),
           ("crewMembers", (db.crewMembers.filter (fun c => c.airline_id == some id)).length)]⟩, db))
    ∧ (((db.aircrafts.filter (fun ac => ac.airline_id == some id)).length = 0 ∧
        (db.flights.filter (fun f => f.airline_id == some id)).length = 0 ∧
        (db.crewMembers.filter (fun c => c.airline_id == some id)).length = 0) →
      deleteAirline id db =
        (⟨200, "Airline deleted successfully", []⟩,
          { db with airlines := db.airlines.filter (fun a => !(a.id == id)) })) := by
  unfold deleteAirline
  simp only [hfind]
  constructor
  · intro hpos
    have hb : (decide (0 < (db.aircrafts.filter (fun ac => ac.airline_id == some id)).length) ||
        decide (0 < (db.flights.filter (fun f => f.airline_id == some id)).length) ||
        decide (0 < (db.crewMembers.filter (fun c => c.airline_id == some id)).length)) = true := by
      rcases hpos with h | h | h <;> simp [h]
    simp only [hb, if_true]
  · intro hz
    have hb : (decide (0 < (db.aircrafts.filter (fun ac => ac.airline_id == some id)).length) ||
        decide (0 < (db.flights.filter (fun f => f.airline_id == some id)).length) ||
        decide (0 < (db.crewMembers.filter (fun c => c.airline_id == some id)).length)) = false := by
      simp [hz.1, hz.2.1, hz.2.2]
    simp [hb]

/-- A database holding one airline with no dependents. -/
def dbLoneAirline : DB :=
  ⟨[⟨"a9", some "Lone Air", none, none, none⟩], [], [], [], [], [], [], []⟩

/-- Witness for C4: in `dbC`, airline a1 owns an aircraft, a flight and a
crew member, so its deletion is rejected with counts 1/1/1; in
`dbLoneAirline`, airline a9 has no dependents and its deletion succeeds. -/
theorem airline_delete_guard_witness :
    deleteAirline "a1" dbC =
      (⟨400, "Cannot delete airline with related records",
        [("aircraft", 1), ("flights", 1), ("crewMembers", 1)]⟩, dbC)
    ∧ deleteAirline "a9" dbLoneAirline =
      (⟨200, "Airline deleted successfully", []⟩,
        { dbLoneAirline with airlines := [] }) := by
  constructor
  · exact (airline_delete_guard dbC "a1" ⟨"a1", some "Test Air", some "TA", none, none⟩
      (by decide)).1 (by decide)
  · exact (airline_delete_guard dbLoneAirline "a9" ⟨"a9", some "Lone Air", none, none, none⟩
      (by decide)).2 (by decide)

lemma truthy_falsy {o : Option String} (h : truthy o = true) : falsy o = false := by
  cases hf : falsy o
  · rfl
  · simp [truthy, hf] at h

/-- C5: passenger email uniqueness is enforced in all three cases —
creating a passenger with an email some passenger already holds is
rejected; updating a passenger to an email held by a different passenger is
rejected; updating a passenger while keeping its own current email succeeds
(the uniqueness query excludes the passenger's own id). -/
theorem passenger_email_uniqueness :
    (∀ freshId req db, truthy req.first_name = true → truthy req.last_name = true →
      truthy req.email = true →
      db.passengers.any (fun p => sqlEq p.email req.email) = true →
      createPassenger freshId req db =
        (⟨400, "A passenger with this email already exists", []⟩, db))
    ∧ (∀ id req db p, truthy req.first_name = true → truthy req.last_name = true →
      truthy req.email = true →
      findPassenger db (some id) = some p →
      db.passengers.any (fun q => sqlEq q.email req.email && q.id != id) = true →
      updatePassenger id req db =
        (⟨400, "Another passenger with this email already exists", []⟩, db))
    ∧ (∀ id req db p, truthy req.first_name = true → truthy req.last_name = true →
      truthy req.email = true →
      findPassenger db (some id) = some p →
      req.email = p.email →
      (∀ q ∈ db.passengers, q.email = p.email → q.id = p.id) →
      (updatePassenger id req db).1.status = 200) := by
  refine ⟨?_, ?_, ?_⟩
  · intro freshId req db h1 h2 h3 hdup
    unfold createPassenger
    simp [truthy_falsy h1, truthy_falsy h2, truthy_falsy h3, hdup]
  · intro id req db p h1 h2 h3 hfind hdup
    unfold updatePassenger
    simp [truthy_falsy h1, truthy_falsy h2, truthy_falsy h3, hfind, hdup]
  · intro id req db p h1 h2 h3 hfind hemail huniq
    have hpid : p.id = id := by
      have hfind2 : db.passengers.find? (fun q => q.id == id) = some p := by
        simpa [findPassenger] using hfind
      simpa using List.find?_some hfind2
    have hdup : db.passengers.any (fun q => sqlEq q.email req.email && q.id != id) = false := by
      rw [List.any_eq_false]
      intro q hq
      cases hre : req.email with
      | none => simp [sqlEq, hre]
      | some s =>
        by_cases hqe : q.email = some s
        · have hqp : q.email = p.email := by rw [hqe, ← hre, hemail]
          have hid : q.id = id := by rw [huniq q hq hqp, hpid]
          simp [sqlEq, hre, hqe, hid]
        · simp [sqlEq, hre, hqe]
    unfold updatePassenger
    simp [truthy_falsy h1, truthy_falsy h2, truthy_falsy h3, hfind, hdup]

/-- The passenger row of `dbC`. -/
def p1rec : Passenger :=
  ⟨"p1", some "John", some "Doe", some "john@example.com", none, none, none, none⟩

/-- An update request that keeps passenger p1's current email. -/
def reqP1 : PassengerReq :=
  ⟨some "Johnny", some "Doe", some "john@example.com", none, none, none, none⟩

/-- Witness for C5: updating passenger p1 of `dbC` while keeping its own
email succeeds. -/
theorem passenger_email_uniqueness_witness :
    (updatePassenger "p1" reqP1 dbC).1.status = 200 :=
  passenger_email_uniqueness.2.2 "p1" reqP1 dbC p1rec (by decide) (by decide)
    (by decide) (by decide) (by decide) (by decide)

/-- Check 3 of the claimed crew-assignment order: the crew member's airline
equals the flight's airline (vacuously true when either lookup fails, which
an earlier check already rejects). -/
def assignAirlineOk (req : AssignReq) (db : DB) : Bool :=
  match findFlight db req.flight_id, findCrewMember db req.crew_member_id with
  | some f, some c => c.airline_id == f.airline_id
  | _, _ => true

/-- The ordered list of crew-assignment checks as the specification
enumerates them. -/
def specAssignChecks (req : AssignReq) (db : DB) : List (Bool × String) :=
  [ ((findFlight db req.flight_id).isSome, "Flight does not exist"),
    ((findCrewMember db req.crew_member_id).isSome, "Crew member does not exist"),
    (assignAirlineOk req db,
      "Crew member does not belong to the airline operating this flight"),
    (!(db.flightCrew.any (fun fc =>
        sqlEq fc.flight_id req.flight_id &&
        sqlEq fc.crew_member_id req.crew_member_id)),
      "This crew member is already assigned to this flight") ]

/-- C6: for a crew-assignment request with all three fields present, the
checks run in the claimed order (flight exists, crew member exists, airline
match, no duplicate assignment), a failing request is rejected with that
check's reason, and a request passing all checks inserts exactly one
FlightCrew row. -/
theorem crew_assignment_checks (req : AssignReq) (db : DB)
    (h1 : truthy req.flight_id = true) (h2 : truthy req.crew_member_id = true)
    (h3 : truthy req.role = true) :
    (∀ msg, firstFailure (specAssignChecks req db) = some msg →
      assignCrew req db = (⟨400, msg, []⟩, db))
    ∧ (firstFailure (specAssignChecks req db) = none →
      assignCrew req db = (⟨201, "Crew member assigned to flight successfully", []⟩,
        { db with flightCrew := db.flightCrew ++
            [⟨req.flight_id, req.crew_member_id, req.role⟩] })) := by
  have key : ∀ r : Resp × DB,
      (match firstFailure (specAssignChecks req db) with
        | some m => (⟨400, m, []⟩, db)
        | none => (⟨201, "Crew member assigned to flight successfully", []⟩,
            { db with flightCrew := db.flightCrew ++
                [⟨req.flight_id, req.crew_member_id, req.role⟩] })) = r →
      assignCrew req db = r := by
    intro r hr
    rw [← hr]
    unfold assignCrew specAssignChecks assignAirlineOk
    simp only [firstFailure, truthy_falsy h1, truthy_falsy h2, truthy_falsy h3,
      Bool.or_self, Bool.or_false, Bool.false_or, if_false]
    cases hff : findFlight db req.flight_id with
    | none => simp
    | some f =>
      cases hcc : findCrewMember db req.crew_member_id with
      | none => simp
      | some c =>
        cases hmatch : (c.airline_id == f.airline_id) with
        | false => simp [bne, hmatch]
        | true =>
          cases hdup : (db.flightCrew.any (fun fc =>
              sqlEq fc.flight_id req.flight_id &&
              sqlEq fc.crew_member_id req.crew_member_id)) with
          | false => simp [bne, hmatch, hdup]
          | true => simp [bne, hmatch, hdup]
  constructor
  · intro msg hmsg
    exact key _ (by rw [hmsg])
  · intro hnone
    exact key _ (by rw [hnone])

/-- The sample database extended with an unassigned crew member of airline
a1. -/
def dbAssign : DB :=
  { dbC with crewMembers := dbC.crewMembers ++
      [⟨"c3", some "Anna", some "Fischer", some "Flight Attendant", some "a1", none, none⟩] }

/-- Witness for C6: assigning the unassigned a1 crew member c3 to flight f1
passes all four checks and appends exactly one FlightCrew row. -/
theorem crew_assignment_checks_witness :
    assignCrew ⟨some "f1", some "c3", some "Officer"⟩ dbAssign =
      (⟨201, "Crew member assigned to flight successfully", []⟩,
        { dbAssign with flightCrew := dbAssign.flightCrew ++
            [⟨some "f1", some "c3", some "Officer"⟩] }) :=
  (crew_assignment_checks ⟨some "f1", some "c3", some "Officer"⟩ dbAssign
    (by decide) (by decide) (by decide)).2 (by decide)

/-- Counterexample to C7: a booking creation in the empty database whose
flight_id "f1" does not resolve is answered with HTTP 400, not the claimed
404. -/
theorem unresolved_ref_not_404_counterexample :
    findFlight dbE (some "f1") = none
    ∧ (createBooking "b9" 0 ⟨some "f1", some "p1", none, none, none⟩ dbE).1.status = 400
    ∧ (createBooking "b9" 0 ⟨some "f1", some "p1", none, none, none⟩ dbE).1.status ≠ 404 := by
  decide

/-- C7 (amended): every handler branch that resolves a body-referenced id
answers HTTP 400 with a "does not exist" message when the id does not
resolve — booking create and update (flight_id, passenger_id), flight
create and update (departure airport, arrival airport, aircraft, airline),
aircraft create and update (airline_id when supplied), crew-member create
and update (airline_id), and crew-assignment creation (flight_id,
crew_member_id) — with the one exception of crew-assignment removal, which
answers 404 "Assignment not found" when the body-referenced (flight_id,
crew_member_id) assignment does not resolve. -/
theorem unresolved_body_ref_status :
    (∀ freshId now req db, falsy req.flight_id = false →
      falsy req.passenger_id = false → findFlight db req.flight_id = none →
      createBooking freshId now req db = (⟨400, "Flight does not exist", []⟩, db))
    ∧ (∀ freshId now req db f, falsy req.flight_id = false →
      falsy req.passenger_id = false → findFlight db req.flight_id = some f →
      findPassenger db req.passenger_id = none →
      createBooking freshId now req db = (⟨400, "Passenger does not exist", []⟩, db))
    ∧ (∀ id req db b, db.bookings.find? (fun x => x.id == id) = some b →
      falsy req.flight_id = false → falsy req.passenger_id = false →
      findFlight db req.flight_id = none →
      updateBooking id req db = (⟨400, "Flight does not exist", []⟩, db))
    ∧ (∀ id req db b f, db.bookings.find? (fun x => x.id == id) = some b →
      falsy req.flight_id = false → falsy req.passenger_id = false →
      findFlight db req.flight_id = some f →
      findPassenger db req.passenger_id = none →
      updateBooking id req db = (⟨400, "Passenger does not exist", []⟩, db))
    ∧ (∀ parse req db, falsy req.flight_number = false →
      falsy req.departure_airport_id = false → falsy req.arrival_airport_id = false →
      falsy req.departure_time = false → falsy req.arrival_time = false →
      falsy req.aircraft_id = false → falsy req.airline_id = false →
      (req.departure_airport_id == req.arrival_airport_id) = false →
      jsGe (req.departure_time.bind parse) (req.arrival_time.bind parse) = false →
      ((findAirport db req.departure_airport_id = none →
        flightError parse req db = some "Departure airport does not exist")
      ∧ (∀ dep, findAirport db req.departure_airport_id = some dep →
        findAirport db req.arrival_airport_id = none →
        flightError parse req db = some "Arrival airport does not exist")
      ∧ (∀ dep arr, findAirport db req.departure_airport_id = some dep →
        findAirport db req.arrival_airport_id = some arr →
        findAircraft db req.aircraft_id = none →
        flightError parse req db = some "Aircraft does not exist")
      ∧ (∀ dep arr ac, findAirport db req.departure_airport_id = some dep →
        findAirport db req.arrival_airport_id = some arr →
        findAircraft db req.aircraft_id = some ac →
        findAirline db req.airline_id = none →
        flightError parse req db = some "Airline does not exist")))
    ∧ (∀ parse freshId req db m, flightError parse req db = some m →
      createFlight parse freshId req db = (⟨400, m, []⟩, db))
    ∧ (∀ parse id req db f m, findFlight db (some id) = some f →
      flightError parse req db = some m →
      updateFlight parse id req db = (⟨400, m, []⟩, db))
    ∧ (∀ freshId req db, falsy req.registration_number = false →
      falsy req.model = false → truthy req.airline_id = true →
      findAirline db req.airline_id = none →
      createAircraft freshId req db = (⟨400, "Specified airline does not exist", []⟩, db))
    ∧ (∀ id req db, falsy req.registration_number = false →
      falsy req.model = false → truthy req.airline_id = true →
      findAirline db req.airline_id = none →
      updateAircraft id req db = (⟨400, "Specified airline does not exist", []⟩, db))
    ∧ (∀ freshId req db, falsy req.first_name = false → falsy req.last_name = false →
      falsy req.position = false → falsy req.airline_id = false →
      findAirline db req.airline_id = none →
      createCrewMember freshId req db = (⟨400, "Airline does not exist", []⟩, db))
    ∧ (∀ id req db c, findCrewMember db (some id) = some c →
      falsy req.first_name = false → falsy req.last_name = false →
      falsy req.position = false → falsy req.airline_id = false →
      findAirline db req.airline_id = none →
      updateCrewMember id req db = (⟨400, "Airline does not exist", []⟩, db))
    ∧ (∀ req db, falsy req.flight_id = false → falsy req.crew_member_id = false →
      falsy req.role = false → findFlight db req.flight_id = none →
      assignCrew req db = (⟨400, "Flight does not exist", []⟩, db))
    ∧ (∀ req db f, falsy req.flight_id = false → falsy req.crew_member_id = false →
      falsy req.role = false → findFlight db req.flight_id = some f →
      findCrewMember db req.crew_member_id = none →
      assignCrew req db = (⟨400, "Crew member does not exist", []⟩, db))
    ∧ (∀ req db, falsy req.flight_id = false → falsy req.crew_member_id = false →
      db.flightCrew.any (fun fc =>
        sqlEq fc.flight_id req.flight_id &&
        sqlEq fc.crew_member_id req.crew_member_id) = false →
      removeAssignment req db = (⟨404, "Assignment not found", []⟩, db)) := by
  refine ⟨?_, ?_, ?_, ?_, ?_, ?_, ?_, ?_, ?_, ?_, ?_, ?_, ?_, ?_⟩
  · intro freshId now req db h1 h2 hf
    unfold createBooking
    simp [h1, h2, hf]
  · intro freshId now req db f h1 h2 hf hp
    unfold createBooking
    simp [h1, h2, hf, hp]
  · intro id req db b hb h1 h2 hf
    unfold updateBooking
    simp [hb, h1, h2, hf]
  · intro id req db b f hb h1 h2 hf hp
    unfold updateBooking
    simp [hb, h1, h2, hf, hp]
  · intro parse req db h1 h2 h3 h4 h5 h6 h7 hsame hge
    refine ⟨?_, ?_, ?_, ?_⟩
    · intro hdep
      unfold flightError
      simp [h1, h2, h3, h4, h5, h6, h7, hsame, hge, hdep]
    · intro dep hdep harr
      unfold flightError
      simp [h1, h2, h3, h4, h5, h6, h7, hsame, hge, hdep, harr]
    · intro dep arr hdep harr hac
      unfold flightError
      simp [h1, h2, h3, h4, h5, h6, h7, hsame, hge, hdep, harr, hac]
    · intro dep arr ac hdep harr hac hal
      unfold flightError
      simp [h1, h2, h3, h4, h5, h6, h7, hsame, hge, hdep, harr, hac, hal]
  · intro parse freshId req db m herr
    unfold createFlight
    simp [herr]
  · intro parse id req db f m hfind herr
    unfold updateFlight
    simp [hfind, herr]
  · intro freshId req db h1 h2 htr hal
    unfold createAircraft
    simp [h1, h2, htr, hal]
  · intro id req db h1 h2 htr hal
    unfold updateAircraft
    simp [h1, h2, htr, hal]
  · intro freshId req db h1 h2 h3 h4 hal
    unfold createCrewMember
    simp [h1, h2, h3, h4, hal]
  · intro id req db c hfind h1 h2 h3 h4 hal
    unfold updateCrewMember
    simp [hfind, h1, h2, h3, h4, hal]
  · intro req db h1 h2 h3 hf
    unfold assignCrew
    simp [h1, h2, h3, hf]
  · intro req db f h1 h2 h3 hf hc
    unfold assignCrew
    simp [h1, h2, h3, hf, hc]
  · intro req db h1 h2 hdup
    unfold removeAssignment
    simp [h1, h2, hdup]

/-- Witness for C7 (amended): the unresolved booking request yields 400 and
the unresolved assignment removal yields 404, both concretely. -/
theorem unresolved_body_ref_status_witness :
    createBooking "b9" 0 ⟨some "f1", some "p1", none, none, none⟩ dbE =
      (⟨400, "Flight does not exist", []⟩, dbE)
    ∧ removeAssignment ⟨some "f1", some "c1", none⟩ dbE =
      (⟨404, "Assignment not found", []⟩, dbE) :=
  ⟨unresolved_body_ref_status.1 "b9" 0 ⟨some "f1", some "p1", none, none, none⟩ dbE
    (by decide) (by decide) (by decide),
   unresolved_body_ref_status.2.2.2.2.2.2.2.2.2.2.2.2.2
    ⟨some "f1", some "c1", none⟩ dbE (by decide) (by decide) (by decide)⟩

/-- Counterexample to C8: crew member c1 of `dbC` has a dependent
FlightCrew row, yet its delete succeeds (200) and removes the FlightCrew
row — a second entity kind besides Flight auto-cascades instead of
rejecting. -/
theorem crew_member_delete_cascades_counterexample :
    0 < (dbC.flightCrew.filter (fun fc => fc.crew_member_id == some "c1")).length
    ∧ (deleteCrewMember "c1" dbC).1.status = 200
    ∧ (deleteCrewMember "c1" dbC).2.flightCrew = [] := by
  decide

/-- C8 (amended): both Flight and CrewMember deletion auto-cascade their
FlightCrew dependents (FlightCrew rows removed first, then the entity),
while Airline, Aircraft, Airport and Passenger deletion finding dependent
rows is rejected with counts and leaves the state unchanged. -/
theorem cascade_is_flight_and_crew_member_only :
    (∀ id db c, findCrewMember db (some id) = some c →
      deleteCrewMember id db = (⟨200, "Crew member deleted successfully", []⟩,
        { db with
          crewMembers := db.crewMembers.filter (fun x => !(x.id == id)),
          flightCrew := db.flightCrew.filter (fun fc => !(fc.crew_member_id == some id)) }))
    ∧ (∀ id db f, findFlight db (some id) = some f →
      (db.bookings.filter (fun b => b.flight_id == some id)).length = 0 →
      deleteFlight id db = (⟨200, "Flight deleted successfully", []⟩,
        { db with
          flights := db.flights.filter (fun g => !(g.id == id)),
          flightCrew := db.flightCrew.filter (fun fc => !(fc.flight_id == some id)) }))
    ∧ (∀ id db al, findAirline db (some id) = some al →
      (0 < (db.aircrafts.filter (fun ac => ac.airline_id == some id)).length ∨
       0 < (db.flights.filter (fun f => f.airline_id == some id)).length ∨
       0 < (db.crewMembers.filter (fun c => c.airline_id == some id)).length) →
      (deleteAirline id db).1.status = 400 ∧ (deleteAirline id db).2 = db)
    ∧ (∀ id db ac, findAircraft db (some id) = some ac →
      0 < (db.flights.filter (fun f => f.aircraft_id == some id)).length →
      (deleteAircraft id db).1.status = 400 ∧ (deleteAircraft id db).2 = db)
    ∧ (∀ id db ap, findAirport db (some id) = some ap →
      (0 < (db.flights.filter (fun f => f.departure_airport_id == some id)).length ∨
       0 < (db.flights.filter (fun f => f.arrival_airport_id == some id)).length) →
      (deleteAirport id db).1.status = 400 ∧ (deleteAirport id db).2 = db)
    ∧ (∀ id db p, findPassenger db (some id) = some p →
      0 < (db.bookings.filter (fun b => b.passenger_id == some id)).length →
      (deletePassenger id db).1.status = 400 ∧ (deletePassenger id db).2 = db) := by
  refine ⟨?_, ?_, ?_, ?_, ?_, ?_⟩
  · intro id db c hfind
    unfold deleteCrewMember
    simp only [hfind]
    by_cases hc : 0 < (db.flightCrew.filter (fun fc => fc.crew_member_id == some id)).length
    · rw [if_pos hc]
    · rw [if_neg hc]
      have h0 : db.flightCrew.any (fun fc => fc.crew_member_id == some id) = false :=
        any_eq_false_of_filter_len _ _ (by omega)
      rw [filter_not_of_any_eq_false _ _ h0]
  · intro id db f hfind hzero
    unfold deleteFlight
    simp only [hfind]
    rw [if_neg (by omega :
      ¬ 0 < (db.bookings.filter (fun b => b.flight_id == some id)).length)]
    by_cases hc : 0 < (db.flightCrew.filter (fun fc => fc.flight_id == some id)).length
    · rw [if_pos hc]
    · rw [if_neg hc]
      have h0 : db.flightCrew.any (fun fc => fc.flight_id == some id) = false :=
        any_eq_false_of_filter_len _ _ (by omega)
      rw [filter_not_of_any_eq_false _ _ h0]
  · intro id db al hfind hpos
    unfold deleteAirline
    simp only [hfind]
    have hb : (decide (0 < (db.aircrafts.filter (fun ac => ac.airline_id == some id)).length) ||
        decide (0 < (db.flights.filter (fun f => f.airline_id == some id)).length) ||
        decide (0 < (db.crewMembers.filter (fun c => c.airline_id == some id)).length)) = true := by
      rcases hpos with h | h | h <;> simp [h]
    simp [hb]
  · intro id db ac hfind hpos
    unfold deleteAircraft
    simp only [hfind]
    rw [if_pos hpos]
    exact ⟨rfl, rfl⟩
  · intro id db ap hfind hpos
    unfold deleteAirport
    simp only [hfind]
    have hb : (decide (0 < (db.flights.filter (fun f => f.departure_airport_id == some id)).length) ||
        decide (0 < (db.flights.filter (fun f => f.arrival_airport_id == some id)).length)) = true := by
      rcases hpos with h | h <;> simp [h]
    simp [hb]
  · intro id db p hfind hpos
    unfold deletePassenger
    simp only [hfind]
    rw [if_pos hpos]
    exact ⟨rfl, rfl⟩

/-- The crew-member row c1 of `dbC`. -/
def c1rec : CrewMember :=
  ⟨"c1", some "Michael", some "Johnson", some "Pilot", some "a1", none, none⟩

/-- Witness for C8 (amended): deleting crew member c1 of `dbC` cascades its
FlightCrew assignment. -/
theorem cascade_is_flight_and_crew_member_only_witness :
    deleteCrewMember "c1" dbC = (⟨200, "Crew member deleted successfully", []⟩,
      { dbC with
        crewMembers := dbC.crewMembers.filter (fun x => !(x.id == "c1")),
        flightCrew := dbC.flightCrew.filter (fun fc => !(fc.crew_member_id == some "c1")) }) :=
  cascade_is_flight_and_crew_member_only.1 "c1" dbC c1rec (by decide)

/-- A fully admissible flight update request for f1 that leaves status
unset. -/
def reqNoStatus : FlightReq :=
  ⟨some "AA105", some "ap1", some "ap2", some "1", some "2",
    some "ac1", some "a1", none⟩

/-- Counterexample to C9: an admissible update of flight f1 with status
unset succeeds (200) but persists status NULL, not "Scheduled". -/
theorem update_status_default_counterexample :
    reqNoStatus.status = none
    ∧ (updateFlight parseDemo "f1" reqNoStatus dbC).1.status = 200
    ∧ (updateFlight parseDemo "f1" reqNoStatus dbC).2.flights.find?
        (fun f => f.id == "f1") =
      some ⟨"f1", some "AA105", some "ap1", some "ap2", some "1", some "2",
        some "ac1", some "a1", none⟩ := by
  decide

lemma jsOr_falsy (o : Option String) (d : String) (h : falsy o = true) :
    jsOr o d = d := by
  cases o with
  | none => rfl
  | some s =>
    simp only [falsy] at h
    simp [jsOr, h]

/-- C9 (amended): only flight creation defaults an unset status to
"Scheduled"; an admissible update performs a full-record replace whose
stored status is exactly the request's raw status value (NULL when unset),
with no default applied. -/
theorem flight_status_default_create_only :
    (∀ parse freshId req db, falsy req.status = true →
      flightError parse req db = none →
      (createFlight parse freshId req db).2.flights =
        db.flights ++ [newFlight freshId req]
      ∧ (newFlight freshId req).status = some "Scheduled")
    ∧ (∀ parse id req db f, findFlight db (some id) = some f →
      flightError parse req db = none →
      (updateFlight parse id req db).2.flights =
        db.flights.map (fun g => if g.id == id then replaceFlight g req else g)
      ∧ ∀ g : Flight, (replaceFlight g req).status = req.status) := by
  constructor
  · intro parse freshId req db hstat herr
    constructor
    · unfold createFlight
      simp [herr]
    · unfold newFlight
      simp [jsOr_falsy _ _ hstat]
  · intro parse id req db f hfind herr
    constructor
    · unfold updateFlight
      simp [hfind, herr]
    · intro g
      rfl

/-- Witness for C9 (amended): creating a flight from `reqC` (status unset)
stores status "Scheduled". -/
theorem flight_status_default_create_only_witness :
    (createFlight parseDemo "f9" reqC dbC).2.flights =
      dbC.flights ++ [newFlight "f9" reqC]
    ∧ (newFlight "f9" reqC).status = some "Scheduled" :=
  flight_status_default_create_only.1 parseDemo "f9" reqC dbC (by decide) (by decide)

/-- A flight request whose timestamps do not parse under `parseDemo`. -/
def reqBadTime : FlightReq :=
  ⟨some "AA106", some "ap1", some "ap2", some "x", some "y",
    some "ac1", some "a1", none⟩

/-- C10: when either timestamp fails to parse, the time-order guard
(`departureDate >= arrivalDate`, false on NaN) never fires, so the
validator cannot reject for time order; concretely, a flight with two
unparseable timestamps passes all checks against `dbC` and is accepted
(201) and inserted. -/
theorem invalid_timestamp_passes_time_check :
    (∀ parse req db,
      (req.departure_time.bind parse = none ∨ req.arrival_time.bind parse = none) →
      flightError parse req db ≠ some "Departure time must be before arrival time")
    ∧ (reqBadTime.departure_time.bind parseDemo = none
      ∧ reqBadTime.arrival_time.bind parseDemo = none
      ∧ (createFlight parseDemo "f9" reqBadTime dbC).1.status = 201
      ∧ (createFlight parseDemo "f9" reqBadTime dbC).2.flights.length =
          dbC.flights.length + 1) := by
  constructor
  · intro parse req db h
    have hj : jsGe (req.departure_time.bind parse) (req.arrival_time.bind parse) = false := by
      rcases h with h | h
      · rw [h]
        rfl
      · rw [h]
        cases req.departure_time.bind parse <;> rfl
    unfold flightError
    simp only [hj, if_false, Bool.false_eq_true]
    split
    · simp
    · split
      · simp
      · split
        · simp
        · split
          · simp
          · split
            · simp
            · split
              · simp
              · split
                · simp
                · simp
  · exact ⟨by decide, by decide, by decide, by decide⟩

/-- Witness for C10: at the concrete unparseable request, the validator
does not report a time-order rejection. -/
theorem invalid_timestamp_passes_time_check_witness :
    flightError parseDemo reqBadTime dbC ≠
      some "Departure time must be before arrival time" :=
  invalid_timestamp_passes_time_check.1 parseDemo reqBadTime dbC (Or.inl (by decide))

end AirlineMS
